import Mathlib

/-!
Verification of the real-time fan-out and task-state-transition subsystem of
the Loki Mode dashboard server (`src/dashboard/server.py`).

The Python handlers are shallowly embedded as pure Lean functions:
database effects (lookups, flush/persist success) are passed in as explicit
parameters, timestamps are `Nat`, and WebSocket connections are identified
by `Nat` ids.  Each definition mirrors the corresponding Python function
line by line; exceptions are modelled with `Except`.
-/

namespace LokiDashboard

/-- Modelled from the spec: the task status enumeration lives in
`dashboard/models.py`, which is not part of the sources here.  Per §3 of the
spec the exact label set is a collaborator concern; `done` is the
distinguished terminal value driving the `completed_at` invariant, and
`pending`/`in_progress` are the example non-terminal stages. -/
inductive TaskStatus where
  | pending
  | in_progress
  | done
  deriving Repr, DecidableEq

/-- Modelled from the spec: the task priority enumeration also lives in
`dashboard/models.py` (not in the sources); its identity is irrelevant to
every property proved here. -/
inductive TaskPriority where
  | low
  | medium
  | high
  deriving Repr, DecidableEq

/-- The stored task row, restricted to the fields `server.py` reads or
writes (the columns of `TaskResponse`). -/
structure Task where
  id : Nat
  project_id : Nat
  title : String
  description : Option String
  status : TaskStatus
  priority : TaskPriority
  position : Int
  assigned_agent_id : Option Nat
  parent_task_id : Option Nat
  estimated_duration : Option Int
  actual_duration : Option Int
  created_at : Nat
  updated_at : Nat
  completed_at : Option Nat
  deriving Repr, DecidableEq

/-- The `TaskUpdate` request schema.  A `none` in an outer `Option` means
the field was absent from the request (`model_dump(exclude_unset=True)`
drops it); nullable columns carry an inner `Option` so that an explicit
`null` can be represented. -/
structure TaskUpdate where
  title : Option String := none
  description : Option (Option String) := none
  status : Option TaskStatus := none
  priority : Option TaskPriority := none
  position : Option Int := none
  assigned_agent_id : Option (Option Nat) := none
  estimated_duration : Option (Option Int) := none
  actual_duration : Option (Option Int) := none
  deriving Repr, DecidableEq

/-- The `TaskMove` request schema. -/
structure TaskMove where
  status : TaskStatus
  position : Int
  deriving Repr, DecidableEq

/-- A minimal JSON value, used for inbound WebSocket text after parsing. -/
inductive Json where
  | null
  | bool (b : Bool)
  | num (n : Int)
  | str (s : String)
  | arr (elems : List Json)
  | obj (fields : List (String × Json))

/-- Broadcast / WebSocket events, one constructor per `type` tag emitted by
`server.py`, carrying exactly the `data` payload fields the code sends. -/
inductive Event where
  | project_created (id : Nat) (name : String)
  | project_updated (id : Nat) (name : String)
  | project_deleted (id : Nat)
  | task_created (id : Nat) (project_id : Nat) (title : String) (status : TaskStatus)
  | task_updated (id : Nat) (project_id : Nat) (title : String) (status : TaskStatus)
  | task_deleted (id : Nat) (project_id : Nat)
  | task_moved (id : Nat) (project_id : Nat) (title : String)
      (old_status : TaskStatus) (new_status : TaskStatus) (position : Int)
  | connected
  | ping
  | pong
  | subscribed (data : Json)

/-- The field-update core of `update_task` (`server.py` lines 544–551):
build `update_data` from the set fields, add `completed_at = now` when the
new status is `DONE`, then assign every field.  Note the code never clears
`completed_at` when status leaves `DONE`. -/
def applyFieldUpdate (task : Task) (u : TaskUpdate) (now : Nat) : Task :=
  { task with
    title := u.title.getD task.title
    description := match u.description with
      | some d => d
      | none => task.description
    status := u.status.getD task.status
    priority := u.priority.getD task.priority
    position := u.position.getD task.position
    assigned_agent_id := match u.assigned_agent_id with
      | some a => a
      | none => task.assigned_agent_id
    estimated_duration := match u.estimated_duration with
      | some e => e
      | none => task.estimated_duration
    actual_duration := match u.actual_duration with
      | some a => a
      | none => task.actual_duration
    completed_at :=
      if u.status = some TaskStatus.done then some now else task.completed_at }

/-- The move core of `move_task` (`server.py` lines 609–617) together with
the `task_moved` event it broadcasts (lines 623–633): set status and
position, stamp `completed_at` when newly entering `DONE`, clear it when
the new status is not `DONE`, leave it untouched on a DONE→DONE move. -/
def applyMove (task : Task) (newStatus : TaskStatus) (newPosition : Int) (now : Nat) :
    Task × Event :=
  let old_status := task.status
  let t := { task with status := newStatus, position := newPosition }
  let t :=
    if newStatus = TaskStatus.done ∧ old_status ≠ TaskStatus.done then
      { t with completed_at := some now }
    else if newStatus ≠ TaskStatus.done then
      { t with completed_at := none }
    else t
  (t, Event.task_moved t.id t.project_id t.title old_status t.status t.position)

/-- `ConnectionManager.connect` (`server.py` lines 146–149): accept the
handshake, then append the connection to `active_connections`.  The registry
state is the Python list, ordered, duplicates possible. -/
def connect (st : List Nat) (ws : Nat) : List Nat :=
  st ++ [ws]

/-- `ConnectionManager.disconnect` (lines 151–154): remove the first
occurrence if present, otherwise do nothing. -/
def disconnect (st : List Nat) (ws : Nat) : List Nat :=
  if ws ∈ st then st.erase ws else st

/-- Result of one `broadcast` call: the connections whose `send_json`
succeeded (in iteration order) and the registry state after the cleanup
loop removed every failed connection. -/
structure BCResult where
  delivered : List Nat
  state : List Nat
  deriving Repr, DecidableEq

/-- `ConnectionManager.broadcast` (lines 156–167).  `fails ws = true` means
`send_json` raises on connection `ws`; the exception is caught and the
connection collected into `disconnected`, every other connection is sent
the message, and afterwards `disconnect` is called on each collected
connection.  The message content does not influence control flow. -/
def broadcast (st : List Nat) (fails : Nat → Bool) : BCResult :=
  let acc := st.foldl
    (fun (acc : List Nat × List Nat) conn =>
      if fails conn then (acc.1, acc.2 ++ [conn]) else (acc.1 ++ [conn], acc.2))
    ([], [])
  { delivered := acc.1
    state := acc.2.foldl (fun s conn => disconnect s conn) st }

/-- Outcome of one HTTP handler: the value returned to the caller (or the
exception that escaped, as `Except.error`) and the events broadcast, in
order. -/
structure Outcome (α : Type) where
  result : Except String α
  events : List Event

/-- True when the handler raised (HTTP error) rather than returning. -/
def isErr {α : Type} : Except String α → Bool
  | Except.error _ => true
  | Except.ok _ => false

/-- The stored project row, restricted to the fields `server.py` touches. -/
structure Project where
  id : Nat
  name : String
  description : Option String
  prd_path : Option String
  status : String
  created_at : Nat
  updated_at : Nat
  deriving Repr, DecidableEq

/-- The `ProjectCreate` request schema. -/
structure ProjectCreate where
  name : String
  description : Option String := none
  prd_path : Option String := none
  deriving Repr, DecidableEq

/-- The `ProjectUpdate` request schema; outer `Option` distinguishes unset
fields as in `TaskUpdate`. -/
structure ProjectUpdate where
  name : Option String := none
  description : Option (Option String) := none
  prd_path : Option (Option String) := none
  status : Option String := none
  deriving Repr, DecidableEq

/-- The `TaskCreate` request schema with its declared defaults. -/
structure TaskCreate where
  project_id : Nat
  title : String
  description : Option String := none
  status : TaskStatus := TaskStatus.pending
  priority : TaskPriority := TaskPriority.medium
  position : Int := 0
  parent_task_id : Option Nat := none
  estimated_duration : Option Int := none
  deriving Repr, DecidableEq

/-- `create_project` (lines 296–327): build the row from the request,
flush (persist), then broadcast `project_created`.  `newId`/`now` stand for
the id and timestamps the database assigns on refresh; `persistOk = false`
means the flush raised, so the exception propagates before any broadcast. -/
def create_project (p : ProjectCreate) (newId : Nat) (now : Nat)
    (defaultStatus : String) (persistOk : Bool) : Outcome Project :=
  let db_project : Project :=
    { id := newId, name := p.name, description := p.description,
      prd_path := p.prd_path, status := defaultStatus,
      created_at := now, updated_at := now }
  if persistOk then
    { result := Except.ok db_project
      events := [Event.project_created db_project.id db_project.name] }
  else
    { result := Except.error "persistence failure", events := [] }

/-- `update_project` (lines 362–405): 404 when the lookup misses, apply
each set field, flush, then broadcast `project_updated`. -/
def update_project (found : Option Project) (u : ProjectUpdate)
    (persistOk : Bool) : Outcome Project :=
  match found with
  | none => { result := Except.error "Project not found", events := [] }
  | some project =>
    let project :=
      { project with
        name := u.name.getD project.name
        description := match u.description with
          | some d => d
          | none => project.description
        prd_path := match u.prd_path with
          | some p => p
          | none => project.prd_path
        status := u.status.getD project.status }
    if persistOk then
      { result := Except.ok project
        events := [Event.project_updated project.id project.name] }
    else
      { result := Except.error "persistence failure", events := [] }

/-- `delete_project` (lines 408–428): 404 when the lookup misses, delete
the row, then broadcast `project_deleted`. -/
def delete_project (projectId : Nat) (found : Option Project)
    (persistOk : Bool) : Outcome Unit :=
  match found with
  | none => { result := Except.error "Project not found", events := [] }
  | some _ =>
    if persistOk then
      { result := Except.ok (), events := [Event.project_deleted projectId] }
    else
      { result := Except.error "persistence failure", events := [] }

/-- `create_task` (lines 457–509): 404 when the project lookup misses, 400
when a declared parent is absent or in another project, otherwise build the
row, flush, and broadcast `task_created`.  `parentFound` is the result of
the parent-validation query. -/
def create_task (t : TaskCreate) (projectFound : Bool) (parentFound : Bool)
    (newId : Nat) (now : Nat) (persistOk : Bool) : Outcome Task :=
  if ¬ projectFound then
    { result := Except.error "Project not found", events := [] }
  else if t.parent_task_id.isSome ∧ ¬ parentFound then
    { result := Except.error "Parent task not found or belongs to different project"
      events := [] }
  else
    let db_task : Task :=
      { id := newId, project_id := t.project_id, title := t.title,
        description := t.description, status := t.status,
        priority := t.priority, position := t.position,
        assigned_agent_id := none, parent_task_id := t.parent_task_id,
        estimated_duration := t.estimated_duration, actual_duration := none,
        created_at := now, updated_at := now, completed_at := none }
    if persistOk then
      { result := Except.ok db_task
        events := [Event.task_created db_task.id db_task.project_id
          db_task.title db_task.status] }
    else
      { result := Except.error "persistence failure", events := [] }

/-- `update_task` (lines 529–567): 404 when the lookup misses, apply
`applyFieldUpdate`, flush, then broadcast `task_updated`. -/
def update_task (found : Option Task) (u : TaskUpdate) (now : Nat)
    (persistOk : Bool) : Outcome Task :=
  match found with
  | none => { result := Except.error "Task not found", events := [] }
  | some task =>
    let task := applyFieldUpdate task u now
    if persistOk then
      { result := Except.ok task
        events := [Event.task_updated task.id task.project_id task.title task.status] }
    else
      { result := Except.error "persistence failure", events := [] }

/-- `delete_task` (lines 570–591): 404 when the lookup misses, delete the
row, then broadcast `task_deleted`. -/
def delete_task (taskId : Nat) (found : Option Task)
    (persistOk : Bool) : Outcome Unit :=
  match found with
  | none => { result := Except.error "Task not found", events := [] }
  | some task =>
    if persistOk then
      { result := Except.ok ()
        events := [Event.task_deleted taskId task.project_id] }
    else
      { result := Except.error "persistence failure", events := [] }

/-- `move_task` (lines 594–635): 404 when the lookup misses, apply
`applyMove`, flush, then broadcast the `task_moved` event. -/
def move_task (found : Option Task) (move : TaskMove) (now : Nat)
    (persistOk : Bool) : Outcome Task :=
  match found with
  | none => { result := Except.error "Task not found", events := [] }
  | some task =>
    let r := applyMove task move.status move.position now
    if persistOk then
      { result := Except.ok r.1, events := [r.2] }
    else
      { result := Except.error "persistence failure", events := [] }

/-- The `StatusResponse` schema. -/
structure StatusResponse where
  status : String
  version : String
  uptime_seconds : Nat
  active_sessions : Nat
  running_agents : Nat
  pending_tasks : Nat
  database_connected : Bool
  deriving Repr, DecidableEq

/-- `get_status` (lines 218–258): run the three count queries inside one
`try`; any failure leaves all counts at 0 and marks the database as
disconnected; the response status is the literal `"running"` either way.
Each query result is passed in as an `Except` (error = the query raised). -/
def get_status (q_sessions q_agents q_tasks : Except String Nat)
    (uptime : Nat) : StatusResponse :=
  let counts : Nat × Nat × Nat × Bool :=
    match q_sessions with
    | Except.error _ => (0, 0, 0, false)
    | Except.ok a =>
      match q_agents with
      | Except.error _ => (0, 0, 0, false)
      | Except.ok r =>
        match q_tasks with
        | Except.error _ => (0, 0, 0, false)
        | Except.ok p => (a, r, p, true)
  { status := "running", version := "0.1.0", uptime_seconds := uptime,
    active_sessions := counts.1, running_agents := counts.2.1,
    pending_tasks := counts.2.2.1, database_connected := counts.2.2.2 }

/-- Outcome of handling one inbound WebSocket message in the receive loop
(lines 657–669): either the loop continues (with the replies sent back), or
an uncaught exception escaped the inner `try` and the loop terminated via
the outer handler (lines 676–678), which disconnects the client. -/
inductive LoopOutcome where
  | continues (replies : List Event)
  | terminated

/-- One iteration of the inbound-message handling in `websocket_endpoint`
(lines 657–669).  `parsed` is the result of `json.loads` on the received
text (`none` = `JSONDecodeError`, which the inner `except` catches and
logs).  On any other JSON value the code calls `message.get("type")`: that
succeeds only on a dict; on a list, string, number, bool or null it raises
`AttributeError`, which the inner `except json.JSONDecodeError` does not
catch, so the loop terminates. -/
def handleMessage (parsed : Option Json) : LoopOutcome :=
  match parsed with
  | none => LoopOutcome.continues []
  | some (Json.obj fields) =>
    match (fields.find? (fun kv => kv.1 == "type")).map (fun kv => kv.2) with
    | some (Json.str s) =>
      if s = "ping" then
        LoopOutcome.continues [Event.pong]
      else if s = "subscribe" then
        LoopOutcome.continues [Event.subscribed
          (((fields.find? (fun kv => kv.1 == "data")).map (fun kv => kv.2)).getD
            (Json.obj []))]
      else
        LoopOutcome.continues []
    | _ => LoopOutcome.continues []
  | some _ => LoopOutcome.terminated

/-! Concrete tasks used to evaluate the handlers at specific inputs. -/

/-- A task currently in the terminal `done` state with a recorded
completion timestamp. -/
def doneTask : Task :=
  { id := 1, project_id := 1, title := "t", description := none,
    status := TaskStatus.done, priority := TaskPriority.medium, position := 0,
    assigned_agent_id := none, parent_task_id := none,
    estimated_duration := none, actual_duration := none,
    created_at := 0, updated_at := 0, completed_at := some 5 }

/-- A freshly created pending task (no completion timestamp). -/
def pendingTask : Task :=
  { id := 2, project_id := 1, title := "u", description := none,
    status := TaskStatus.pending, priority := TaskPriority.medium, position := 0,
    assigned_agent_id := none, parent_task_id := none,
    estimated_duration := none, actual_duration := none,
    created_at := 0, updated_at := 0, completed_at := none }

/-! Helper lemmas about `broadcast`. -/

lemma broadcast_foldl (fails : Nat → Bool) :
    ∀ (st a b : List Nat),
      st.foldl
        (fun (acc : List Nat × List Nat) conn =>
          if fails conn then (acc.1, acc.2 ++ [conn]) else (acc.1 ++ [conn], acc.2))
        (a, b)
      = (a ++ st.filter (fun c => ! fails c), b ++ st.filter fails) := by
  intro st
  induction st with
  | nil => simp
  | cons x xs ih =>
    intro a b
    cases hfx : fails x <;> simp [List.filter_cons, hfx, ih]

lemma disconnect_eq_erase (st : List Nat) (ws : Nat) :
    disconnect st ws = st.erase ws := by
  by_cases h : ws ∈ st <;> simp [disconnect, h, List.erase_of_not_mem]

lemma foldl_disconnect_eq_diff :
    ∀ (l st : List Nat), l.foldl (fun s c => disconnect s c) st = st.diff l := by
  intro l
  induction l with
  | nil => intro st; simp [List.diff]
  | cons a as ih =>
    intro st
    rw [List.foldl_cons, ih, disconnect_eq_erase, List.diff_cons]

lemma broadcast_delivered (st : List Nat) (fails : Nat → Bool) :
    (broadcast st fails).delivered = st.filter (fun c => ! fails c) := by
  simp [broadcast, broadcast_foldl]

lemma broadcast_state (st : List Nat) (fails : Nat → Bool) (h : st.Nodup) :
    (broadcast st fails).state = st.filter (fun c => ! fails c) := by
  simp only [broadcast, broadcast_foldl, List.nil_append]
  rw [foldl_disconnect_eq_diff, h.diff_eq_filter]
  refine List.filter_congr ?_
  intro a ha
  simp [List.mem_filter, ha]

/-- C1: the claimed invariant — `completed_at` non-null iff status is
`DONE` after every `move_task`/`update_task` mutation — fails on the
`update_task` path: lines 544–551 set `completed_at` when the new status is
`DONE` but never clear it when the status leaves `DONE`.  Updating a task
that is `DONE` with `completed_at = 5` to status `pending` leaves
`completed_at = 5` while the status is no longer `DONE`. -/
theorem update_task_keeps_stale_completed_at :
    (applyFieldUpdate doneTask { status := some TaskStatus.pending } 7).status
        = TaskStatus.pending ∧
    (applyFieldUpdate doneTask { status := some TaskStatus.pending } 7).completed_at
        = some 5 := by
  exact ⟨rfl, rfl⟩

/-- C2: `broadcast` delivers the event to every non-failing connection (in
registration order), removes exactly the failing connections from the
registry within the same call, and a subsequent failure-free broadcast
reaches exactly the survivors.  No exception escapes: `broadcast` is a
total function — every send failure is caught inside the loop. -/
theorem broadcast_failure_isolation (st : List Nat) (fails : Nat → Bool)
    (h : st.Nodup) :
    (broadcast st fails).delivered = st.filter (fun c => ! fails c) ∧
    (broadcast st fails).state = st.filter (fun c => ! fails c) ∧
    (broadcast (broadcast st fails).state (fun _ => false)).delivered
      = st.filter (fun c => ! fails c) := by
  refine ⟨broadcast_delivered st fails, broadcast_state st fails h, ?_⟩
  rw [broadcast_delivered, broadcast_state st fails h]
  simp

/-- Witness for C2: three registered connections, connection 2 fails its
send; 1 and 3 receive the event and survive, 2 is unregistered. -/
theorem broadcast_failure_isolation_witness :
    (broadcast [1, 2, 3] (fun c => c == 2)).delivered = [1, 3] ∧
    (broadcast [1, 2, 3] (fun c => c == 2)).state = [1, 3] := by
  have h := broadcast_failure_isolation [1, 2, 3] (fun c => c == 2) (by decide)
  exact ⟨h.1.trans (by decide), h.2.1.trans (by decide)⟩

/-- C3: `applyMove` (the core of `move_task`, lines 609–617) sets the new
status and position; entering `DONE` from a non-`DONE` status stamps
`completed_at = now`; any move to a non-`DONE` status clears it; a
DONE→DONE (position-only) move leaves it unchanged. -/
theorem applyMove_transition (task : Task) (newStatus : TaskStatus)
    (newPosition : Int) (now : Nat) :
    (applyMove task newStatus newPosition now).1.status = newStatus ∧
    (applyMove task newStatus newPosition now).1.position = newPosition ∧
    (newStatus = TaskStatus.done → task.status ≠ TaskStatus.done →
      (applyMove task newStatus newPosition now).1.completed_at = some now) ∧
    (newStatus ≠ TaskStatus.done →
      (applyMove task newStatus newPosition now).1.completed_at = none) ∧
    (newStatus = TaskStatus.done → task.status = TaskStatus.done →
      (applyMove task newStatus newPosition now).1.completed_at = task.completed_at) := by
  by_cases h1 : newStatus = TaskStatus.done <;>
    by_cases h2 : task.status = TaskStatus.done <;>
      simp [applyMove, h1, h2]

/-- Witness for C3: moving a pending task into `DONE` at time 3 stamps
`completed_at = 3`; moving a done task back to pending clears it. -/
theorem applyMove_transition_witness :
    (applyMove pendingTask TaskStatus.done 0 3).1.completed_at = some 3 ∧
    (applyMove doneTask TaskStatus.pending 1 4).1.completed_at = none := by
  constructor
  · exact (applyMove_transition pendingTask TaskStatus.done 0 3).2.2.1 rfl (by decide)
  · exact (applyMove_transition doneTask TaskStatus.pending 1 4).2.2.2.1 (by decide)

/-- C4: on every mutating handler (project/task create, update, delete,
move) the persistence step precedes the broadcast in the handler body, and
when persistence fails the exception propagates immediately: no event is
broadcast and the caller receives a failure. -/
theorem persist_fail_no_broadcast (p : ProjectCreate) (newId now : Nat)
    (ds : String) (fp : Option Project) (u : ProjectUpdate) (pid : Nat)
    (tc : TaskCreate) (projectFound parentFound : Bool)
    (ft : Option Task) (tu : TaskUpdate) (tid : Nat) (tm : TaskMove) :
    ((create_project p newId now ds false).events = [] ∧
      isErr (create_project p newId now ds false).result = true) ∧
    ((update_project fp u false).events = [] ∧
      isErr (update_project fp u false).result = true) ∧
    ((delete_project pid fp false).events = [] ∧
      isErr (delete_project pid fp false).result = true) ∧
    ((create_task tc projectFound parentFound newId now false).events = [] ∧
      isErr (create_task tc projectFound parentFound newId now false).result = true) ∧
    ((update_task ft tu now false).events = [] ∧
      isErr (update_task ft tu now false).result = true) ∧
    ((delete_task tid ft false).events = [] ∧
      isErr (delete_task tid ft false).result = true) ∧
    ((move_task ft tm now false).events = [] ∧
      isErr (move_task ft tm now false).result = true) := by
  refine ⟨?_, ?_, ?_, ?_, ?_, ?_, ?_⟩
  · simp [create_project, isErr]
  · cases fp <;> simp [update_project, isErr]
  · cases fp <;> simp [delete_project, isErr]
  · cases projectFound <;> simp [create_task, isErr]
    split <;> simp [isErr]
  · cases ft <;> simp [update_task, isErr]
  · cases ft <;> simp [delete_task, isErr]
  · cases ft <;> simp [move_task, isErr]

/-- C5: the claim fails on the code.  Non-JSON text is indeed ignored (the
inner `except json.JSONDecodeError` catches it and the loop continues),
but a message that parses to a JSON value that is not an object — e.g. the
array `[1, 2]` — makes `message.get("type")` raise `AttributeError`, which
the inner handler does not catch; it escapes to the outer handler of
`websocket_endpoint`, which disconnects the client and ends the loop. -/
theorem nonobject_json_terminates_loop :
    handleMessage (some (Json.arr [Json.num 1, Json.num 2]))
        = LoopOutcome.terminated ∧
    handleMessage none = LoopOutcome.continues [] := by
  exact ⟨rfl, rfl⟩

/-- C6: registering the same connection twice (the list then holds two
copies) and unregistering once (`list.remove` deletes the first copy)
leaves exactly one copy, so a subsequent failure-free broadcast delivers
the event to that connection exactly once — in particular at most once —
and every operation involved is total, so no error is raised. -/
theorem double_register_single_unregister (st : List Nat) (c : Nat)
    (h : c ∉ st) :
    ((broadcast (disconnect (connect (connect st c) c) c)
        (fun _ => false)).delivered).count c = 1 := by
  have hreg : disconnect (connect (connect st c) c) c = st ++ [c] := by
    rw [connect, connect, disconnect_eq_erase, List.append_assoc,
      List.erase_append_right _ h]
    simp
  rw [hreg, broadcast_delivered]
  simp [List.count_append, List.count_eq_zero_of_not_mem h]

/-- Witness for C6: one client registered twice into an empty registry,
then unregistered once, receives a broadcast exactly once. -/
theorem double_register_single_unregister_witness :
    ((broadcast (disconnect (connect (connect [] 7) 7) 7)
        (fun _ => false)).delivered).count 7 = 1 :=
  double_register_single_unregister [] 7 (by decide)

/-- C7: `disconnect` on a connection that is not registered is a no-op —
the membership guard fails, nothing is removed, no error is raised. -/
theorem disconnect_unknown_noop (st : List Nat) (ws : Nat) (h : ws ∉ st) :
    disconnect st ws = st := by
  simp [disconnect, h]

/-- Witness for C7: removing an unknown connection id leaves the registry
unchanged. -/
theorem disconnect_unknown_noop_witness : disconnect [1, 2] 5 = [1, 2] :=
  disconnect_unknown_noop [1, 2] 5 (by decide)

/-- C8: a move request equal to the task's current status and position is
accepted (no rejection branch exists for it in `move_task`) and still
broadcasts a `task_moved` event whose `old_status` equals `new_status`. -/
theorem move_same_status_position_accepted (task : Task) (now : Nat) :
    isErr (move_task (some task)
        { status := task.status, position := task.position } now true).result
      = false ∧
    (move_task (some task)
        { status := task.status, position := task.position } now true).events
      = [Event.task_moved task.id task.project_id task.title
          task.status task.status task.position] := by
  by_cases h : task.status = TaskStatus.done <;>
    simp [move_task, applyMove, isErr, h]

/-- C9: whenever `update_task`'s changed fields include `status = DONE`,
the stored `completed_at` is set to the call time, with no check of the
previous status (lines 547–548). -/
theorem update_status_done_stamps_now (task : Task) (u : TaskUpdate)
    (now : Nat) (h : u.status = some TaskStatus.done) :
    (applyFieldUpdate task u now).completed_at = some now := by
  simp [applyFieldUpdate, h]

/-- Witness for C9: a task already `DONE` with `completed_at = 5`, updated
again with `status = DONE` at time 9, has its timestamp overwritten to 9. -/
theorem update_status_done_stamps_now_witness :
    (applyFieldUpdate doneTask { status := some TaskStatus.done } 9).completed_at
      = some 9 :=
  update_status_done_stamps_now doneTask { status := some TaskStatus.done } 9 rfl

/-- C10: `get_status` is total (the handler catches every query exception),
always reports the literal status `"running"`, and when any of the three
count queries fails it returns zero counts with
`database_connected = false`. -/
theorem get_status_total_running (q1 q2 q3 : Except String Nat) (u : Nat) :
    (get_status q1 q2 q3 u).status = "running" ∧
    (isErr q1 = true ∨ isErr q2 = true ∨ isErr q3 = true →
      get_status q1 q2 q3 u =
        { status := "running", version := "0.1.0", uptime_seconds := u,
          active_sessions := 0, running_agents := 0, pending_tasks := 0,
          database_connected := false }) := by
  cases q1 <;> cases q2 <;> cases q3 <;> simp [get_status, isErr]

/-- Witness for C10: a failing sessions query yields the degraded response
with status still `"running"`. -/
theorem get_status_total_running_witness :
    get_status (Except.error "boom") (Except.ok 3) (Except.ok 4) 5 =
      { status := "running", version := "0.1.0", uptime_seconds := 5,
        active_sessions := 0, running_agents := 0, pending_tasks := 0,
        database_connected := false } :=
  (get_status_total_running (Except.error "boom") (Except.ok 3) (Except.ok 4) 5).2
    (Or.inl rfl)

end LokiDashboard
